import Mathlib

/-!
Shallow embedding of the Ondilo API client (`src/ondilo/ondilo.py`).

The Python client wraps a `requests_oauthlib.OAuth2Session`.  The embedding
makes the external world explicit: an `Env` gives the outcome of every HTTP
dispatch through the session (the call may return a `Response`, raise the
OAuth layer's `TokenExpiredError`, or raise some other transport/OAuth
exception) and the outcome of a refresh-token exchange.  Client methods
return their result (`Except PyError _`), the client state after the call,
and a `Trace` recording the HTTP attempts issued, the number of refresh
attempts, and the invocations of the `token_updater` callback.
-/

/-- JSON values, as returned by `Response.json()`. -/
inductive Json where
  | null
  | bool (b : Bool)
  | num (n : Int)
  | str (s : String)
  | arr (elems : List Json)
  | obj (fields : List (String × Json))

/-- An OAuth2 token set; the Python code handles it as an opaque `dict`. -/
abbrev TokenSet := List (String × String)

/-- An HTTP response as seen by the client: `status_code`, the body text, and
the body parsed as JSON (what `req.json()` returns). -/
structure Response where
  status_code : Nat
  text : String
  json : Json

/-- One HTTP dispatch through the OAuth session:
`getattr(self._oauth, method)(url, **kwargs)`. -/
structure HttpRequest where
  method : String
  url : String
  kwargs : List (String × String)
deriving DecidableEq

/-- Outcome of one HTTP dispatch through the OAuth session: the call returns a
`Response`, or the OAuth layer raises `TokenExpiredError`, or some other
exception comes out of the transport/OAuth layer. -/
inductive HttpOutcome where
  | success (resp : Response)
  | tokenExpired
  | transportError (msg : String)

/-- Outcome of the refresh-token exchange `self._oauth.refresh_token(...)`:
a new token set, or an exception from the OAuth layer. -/
inductive RefreshOutcome where
  | success (token : TokenSet)
  | failure (msg : String)

/-- The exceptions a call can surface.  `ondiloError` is the repository's own
`OndiloError(status_code, message)`; the other constructors model exceptions
of the OAuth/transport layer, which the repository does not define or wrap:
`tokenExpiredError` is `oauthlib`'s `TokenExpiredError`, `invalidArgument` is
the OAuth layer's rejection of unusable arguments, and `oauthError` stands
for any other transport or OAuth exception. -/
inductive PyError where
  | ondiloError (status_code : Nat) (message : String)
  | tokenExpiredError
  | invalidArgument (msg : String)
  | oauthError (msg : String)

/-- The external world: the HTTP dispatch outcome as a function of the
session's current token and the request; the refresh outcome as a function of
the current token; the token-endpoint exchange used by `fetch_token`; and the
anti-forgery state the OAuth layer generates for the authorization URL. -/
structure Env where
  http : TokenSet → HttpRequest → HttpOutcome
  refresh : TokenSet → RefreshOutcome
  exchange : Option String → Option String → Except PyError TokenSet
  state : String

/-- Observable side effects of one client call: the HTTP attempts issued in
order, the number of refresh attempts, and the `token_updater` invocations. -/
structure Trace where
  attempts : List HttpRequest
  refreshes : Nat
  updaterCalls : List TokenSet

def API_HOST : String := "https://interop.ondilo.com"

def API_URL : String := API_HOST ++ "/api/customer/v1"

def ENDPOINT_TOKEN : String := "/oauth2/token"

def ENDPOINT_AUTHORIZE : String := "/oauth2/authorize"

def DEFAULT_CLIENT_ID : String := "customer_api"

def DEFAULT_CLIENT_SECRET : String := ""

def DEFAULT_SCOPE : String := "api"

/-- The Ondilo client.  `oauthToken` is the OAuth session's current token
(`self._oauth.token`); `hasTokenUpdater` records whether a `token_updater`
callback was configured at construction (its invocations are logged in the
`Trace`). -/
structure Ondilo where
  host : String
  client_id : String
  client_secret : String
  redirect_uri : Option String
  hasTokenUpdater : Bool
  scope : String
  oauthToken : TokenSet

/-- `Ondilo.__init__`: stores the configuration, fixes `host := API_HOST` and
`scope := DEFAULT_SCOPE`, and hands the token and configuration to the OAuth2
session. -/
def mkOndilo (token : TokenSet) (client_id client_secret : String)
    (redirect_uri : Option String) (hasTokenUpdater : Bool) : Ondilo :=
  { host := API_HOST, client_id := client_id, client_secret := client_secret,
    redirect_uri := redirect_uri, hasTokenUpdater := hasTokenUpdater,
    scope := DEFAULT_SCOPE, oauthToken := token }

/-- `Ondilo.refresh_tokens`: refresh the token through the OAuth session
(which stores the new token on the session), invoke the `token_updater`
callback with the new token when one is configured, and return the token.
A failing refresh raises the OAuth layer's exception.  Returns the result,
the client afterwards, and the list of `token_updater` invocations. -/
def Ondilo.refresh_tokens (env : Env) (c : Ondilo) :
    Except PyError TokenSet × Ondilo × List TokenSet :=
  match env.refresh c.oauthToken with
  | .failure msg => (.error (.oauthError msg), c, [])
  | .success token =>
      (.ok token, { c with oauthToken := token },
       if c.hasTokenUpdater then [token] else [])

/-- Modelled from the spec: the OAuth layer's `fetch_token`
(`requests_oauthlib`, not part of this repository) performs the
token-endpoint exchange given either the full redirect callback URL or a bare
code; "Exactly one of authorization_response/code must be usable; if both are
absent, fails with InvalidArgument." -/
def fetch_token (env : Env) (authorization_response : Option String)
    (code : Option String) : Except PyError TokenSet :=
  match authorization_response, code with
  | none, none =>
      .error (.invalidArgument
        "Please supply either code or authorization_response parameters.")
  | _, _ => env.exchange authorization_response code

/-- `Ondilo.request_token`: delegates to the OAuth session's `fetch_token`
against `f"{self.host}{ENDPOINT_TOKEN}"`, passing `authorization_response`
and `code` through. -/
def Ondilo.request_token (env : Env) (_c : Ondilo)
    (authorization_response : Option String) (code : Option String) :
    Except PyError TokenSet :=
  fetch_token env authorization_response code

/-- Percent-encoding of one character (unreserved characters kept, others
encoded as a percent escape of their code point, restricted to ASCII). -/
def pctEncodeChar (ch : Char) : String :=
  if ch.isAlphanum || ch = '-' || ch = '.' || ch = '_' || ch = '~' then
    String.singleton ch
  else
    let n := ch.toNat % 256
    let hexDigit : Nat → Char := fun d =>
      if d < 10 then Char.ofNat (48 + d) else Char.ofNat (55 + d)
    String.mk ['%', hexDigit (n / 16), hexDigit (n % 16)]

/-- URL-encode a string. -/
def urlencode (s : String) : String :=
  String.join (s.toList.map pctEncodeChar)

/-- Render a query-parameter list as a URL-encoded query string. -/
def urlencodeParams (ps : List (String × String)) : String :=
  String.intercalate "&" (ps.map (fun p => urlencode p.1 ++ "=" ++ urlencode p.2))

/-- Modelled from the spec: `OAuth2Session.authorization_url`
(`requests_oauthlib`/`oauthlib.prepare_grant_uri`, not part of this
repository) "constructs the provider's authorization endpoint URL with
client_id, redirect_uri, scope, and any flow-required state parameter
embedded as query parameters". -/
def authorization_url (client_id : String) (redirect_uri : Option String)
    (scope state base : String) : String :=
  base ++ "?" ++ urlencodeParams
    ([("response_type", "code"), ("client_id", client_id)] ++
     (match redirect_uri with
      | some r => [("redirect_uri", r)]
      | none => []) ++
     [("scope", scope), ("state", state)])

/-- `Ondilo.get_authurl`: the OAuth session's `authorization_url` applied to
`f"{self.host}{ENDPOINT_AUTHORIZE}"`, with the session's configured
client_id, redirect_uri and scope. -/
def Ondilo.get_authurl (env : Env) (c : Ondilo) : String :=
  authorization_url c.client_id c.redirect_uri c.scope env.state
    (c.host ++ ENDPOINT_AUTHORIZE)

/-- The request `Ondilo.request` dispatches: `url = f"{API_URL}{path}"`, with
the method name and the keyword arguments passed through. -/
def mkReq (method path : String) (kwargs : List (String × String)) :
    HttpRequest :=
  { method := method, url := API_URL ++ path, kwargs := kwargs }

/-- `Ondilo.request`: dispatch the request once through the OAuth session; if
the OAuth layer raises `TokenExpiredError`, call `refresh_tokens`, store the
result on the session, and dispatch the identical request once more.  Any
other exception — including a second `TokenExpiredError` or a failing
refresh — propagates to the caller. -/
def Ondilo.request (env : Env) (c : Ondilo) (method path : String)
    (kwargs : List (String × String)) :
    Except PyError Response × Ondilo × Trace :=
  match env.http c.oauthToken (mkReq method path kwargs) with
  | .success resp =>
      (.ok resp, c,
       { attempts := [mkReq method path kwargs], refreshes := 0,
         updaterCalls := [] })
  | .transportError msg =>
      (.error (.oauthError msg), c,
       { attempts := [mkReq method path kwargs], refreshes := 0,
         updaterCalls := [] })
  | .tokenExpired =>
      match Ondilo.refresh_tokens env c with
      | (.error e, c1, calls) =>
          (.error e, c1,
           { attempts := [mkReq method path kwargs], refreshes := 1,
             updaterCalls := calls })
      | (.ok _, c1, calls) =>
          match env.http c1.oauthToken (mkReq method path kwargs) with
          | .success resp =>
              (.ok resp, c1,
               { attempts := [mkReq method path kwargs,
                              mkReq method path kwargs],
                 refreshes := 1, updaterCalls := calls })
          | .tokenExpired =>
              (.error .tokenExpiredError, c1,
               { attempts := [mkReq method path kwargs,
                              mkReq method path kwargs],
                 refreshes := 1, updaterCalls := calls })
          | .transportError msg =>
              (.error (.oauthError msg), c1,
               { attempts := [mkReq method path kwargs,
                              mkReq method path kwargs],
                 refreshes := 1, updaterCalls := calls })

/-- The response handling every resource method repeats verbatim:
`if req.status_code != 200: raise OndiloError(req.status_code, req.text)`
then `return req.json()`; an exception from `Ondilo.request` flies past. -/
def jsonOrError :
    Except PyError Response × Ondilo × Trace →
    Except PyError Json × Ondilo × Trace
  | (.error e, c, t) => (.error e, c, t)
  | (.ok resp, c, t) =>
      if resp.status_code ≠ 200 then
        (.error (.ondiloError resp.status_code resp.text), c, t)
      else
        (.ok resp.json, c, t)

/-- `Ondilo.get_pools`: GET `/pools`. -/
def Ondilo.get_pools (env : Env) (c : Ondilo) :
    Except PyError Json × Ondilo × Trace :=
  jsonOrError (Ondilo.request env c "get" "/pools" [])

/-- `Ondilo.get_ICO_details`: GET `/pools/{pool_id}/device`. -/
def Ondilo.get_ICO_details (env : Env) (c : Ondilo) (pool_id : Int) :
    Except PyError Json × Ondilo × Trace :=
  jsonOrError
    (Ondilo.request env c "get" ("/pools/" ++ toString pool_id ++ "/device") [])

/-- The fixed query string of `Ondilo.get_last_pool_measures`. -/
def lastMeasuresQstr : String :=
  "?types[]=temperature&types[]=ph&types[]=orp&types[]=salt&types[]=battery&types[]=tds&types[]=rssi"

/-- `Ondilo.get_last_pool_measures`: GET
`/pools/{pool_id}/lastmeasures` with the fixed `types[]` query string. -/
def Ondilo.get_last_pool_measures (env : Env) (c : Ondilo) (pool_id : Int) :
    Except PyError Json × Ondilo × Trace :=
  jsonOrError
    (Ondilo.request env c "get"
      ("/pools/" ++ toString pool_id ++ "/lastmeasures" ++ lastMeasuresQstr) [])

/-- `Ondilo.get_pool_recommendations`: GET `/pools/{pool_id}/recommendations`. -/
def Ondilo.get_pool_recommendations (env : Env) (c : Ondilo) (pool_id : Int) :
    Except PyError Json × Ondilo × Trace :=
  jsonOrError
    (Ondilo.request env c "get"
      ("/pools/" ++ toString pool_id ++ "/recommendations") [])

/-- `Ondilo.validate_pool_recommendation`: PUT
`/pools/{pool_id}/recommendations/{recommendation_id}`. -/
def Ondilo.validate_pool_recommendation (env : Env) (c : Ondilo)
    (pool_id recommendation_id : Int) :
    Except PyError Json × Ondilo × Trace :=
  jsonOrError
    (Ondilo.request env c "put"
      ("/pools/" ++ toString pool_id ++ "/recommendations/" ++
       toString recommendation_id) [])

/-- `Ondilo.get_user_units`: GET `/user/units`. -/
def Ondilo.get_user_units (env : Env) (c : Ondilo) :
    Except PyError Json × Ondilo × Trace :=
  jsonOrError (Ondilo.request env c "get" "/user/units" [])

/-- `Ondilo.get_user_info`: GET `/user/info`. -/
def Ondilo.get_user_info (env : Env) (c : Ondilo) :
    Except PyError Json × Ondilo × Trace :=
  jsonOrError (Ondilo.request env c "get" "/user/info" [])

/-- `Ondilo.get_pool_config`: GET `/pools/{pool_id}/configuration`. -/
def Ondilo.get_pool_config (env : Env) (c : Ondilo) (pool_id : Int) :
    Except PyError Json × Ondilo × Trace :=
  jsonOrError
    (Ondilo.request env c "get"
      ("/pools/" ++ toString pool_id ++ "/configuration") [])

/-- `Ondilo.get_pool_shares`: GET `/pools/{pool_id}/shares`. -/
def Ondilo.get_pool_shares (env : Env) (c : Ondilo) (pool_id : Int) :
    Except PyError Json × Ondilo × Trace :=
  jsonOrError
    (Ondilo.request env c "get"
      ("/pools/" ++ toString pool_id ++ "/shares") [])

/-- `Ondilo.get_pool_histo`: GET
`/pools/{pool_id}/measures?type={measure}&period={period}`; the period string
is concatenated into the query uninterpreted. -/
def Ondilo.get_pool_histo (env : Env) (c : Ondilo) (pool_id : Int)
    (measure period : String) :
    Except PyError Json × Ondilo × Trace :=
  jsonOrError
    (Ondilo.request env c "get"
      ("/pools/" ++ toString pool_id ++ "/measures?type=" ++ measure ++
       "&period=" ++ period) [])

/-! ### Case analysis of `Ondilo.request` -/

/-- First dispatch returns a response: no refresh, one attempt. -/
theorem request_success_case (env : Env) (c : Ondilo) (m p : String)
    (k : List (String × String)) (resp : Response)
    (h : env.http c.oauthToken (mkReq m p k) = .success resp) :
    Ondilo.request env c m p k =
      (.ok resp, c,
       { attempts := [mkReq m p k], refreshes := 0, updaterCalls := [] }) := by
  simp only [Ondilo.request, h]

/-- First dispatch raises a non-expiry exception: it propagates, no refresh. -/
theorem request_transport_case (env : Env) (c : Ondilo) (m p : String)
    (k : List (String × String)) (msg : String)
    (h : env.http c.oauthToken (mkReq m p k) = .transportError msg) :
    Ondilo.request env c m p k =
      (.error (.oauthError msg), c,
       { attempts := [mkReq m p k], refreshes := 0, updaterCalls := [] }) := by
  simp only [Ondilo.request, h]

/-- First dispatch raises `TokenExpiredError` and the refresh itself fails:
the refresh exception propagates, no second dispatch. -/
theorem request_expired_refresh_fail (env : Env) (c : Ondilo) (m p : String)
    (k : List (String × String)) (msg : String)
    (h1 : env.http c.oauthToken (mkReq m p k) = .tokenExpired)
    (h2 : env.refresh c.oauthToken = .failure msg) :
    Ondilo.request env c m p k =
      (.error (.oauthError msg), c,
       { attempts := [mkReq m p k], refreshes := 1, updaterCalls := [] }) := by
  simp only [Ondilo.request, Ondilo.refresh_tokens, h1, h2]

/-- First dispatch raises `TokenExpiredError`, refresh succeeds, and the
reissued identical request returns a response. -/
theorem request_expired_retry_success (env : Env) (c : Ondilo) (m p : String)
    (k : List (String × String)) (tok : TokenSet) (resp : Response)
    (h1 : env.http c.oauthToken (mkReq m p k) = .tokenExpired)
    (h2 : env.refresh c.oauthToken = .success tok)
    (h3 : env.http tok (mkReq m p k) = .success resp) :
    Ondilo.request env c m p k =
      (.ok resp, { c with oauthToken := tok },
       { attempts := [mkReq m p k, mkReq m p k], refreshes := 1,
         updaterCalls := if c.hasTokenUpdater then [tok] else [] }) := by
  simp only [Ondilo.request, Ondilo.refresh_tokens, h1, h2, h3]

/-- First dispatch raises `TokenExpiredError`, refresh succeeds, and the
reissued request raises `TokenExpiredError` again: the exception propagates
raw and no second refresh happens. -/
theorem request_expired_retry_expired (env : Env) (c : Ondilo) (m p : String)
    (k : List (String × String)) (tok : TokenSet)
    (h1 : env.http c.oauthToken (mkReq m p k) = .tokenExpired)
    (h2 : env.refresh c.oauthToken = .success tok)
    (h3 : env.http tok (mkReq m p k) = .tokenExpired) :
    Ondilo.request env c m p k =
      (.error .tokenExpiredError, { c with oauthToken := tok },
       { attempts := [mkReq m p k, mkReq m p k], refreshes := 1,
         updaterCalls := if c.hasTokenUpdater then [tok] else [] }) := by
  simp only [Ondilo.request, Ondilo.refresh_tokens, h1, h2, h3]

/-- First dispatch raises `TokenExpiredError`, refresh succeeds, and the
reissued request raises a non-expiry exception: it propagates. -/
theorem request_expired_retry_transport (env : Env) (c : Ondilo) (m p : String)
    (k : List (String × String)) (tok : TokenSet) (msg : String)
    (h1 : env.http c.oauthToken (mkReq m p k) = .tokenExpired)
    (h2 : env.refresh c.oauthToken = .success tok)
    (h3 : env.http tok (mkReq m p k) = .transportError msg) :
    Ondilo.request env c m p k =
      (.error (.oauthError msg), { c with oauthToken := tok },
       { attempts := [mkReq m p k, mkReq m p k], refreshes := 1,
         updaterCalls := if c.hasTokenUpdater then [tok] else [] }) := by
  simp only [Ondilo.request, Ondilo.refresh_tokens, h1, h2, h3]

/-! ### Behaviour of the shared response handling -/

/-- `jsonOrError` never changes the client state or the trace. -/
theorem jsonOrError_snd (x : Except PyError Response × Ondilo × Trace) :
    (jsonOrError x).2 = x.2 := by
  rcases x with ⟨r, c, t⟩
  cases r with
  | error e => rfl
  | ok resp =>
      simp only [jsonOrError]
      split <;> rfl

/-- An exception from `Ondilo.request` flies past the status check. -/
theorem jsonOrError_error (x : Except PyError Response × Ondilo × Trace)
    (e : PyError) (h : x.1 = .error e) :
    jsonOrError x = (.error e, x.2.1, x.2.2) := by
  rcases x with ⟨r, c, t⟩
  simp only at h
  subst h
  rfl

/-- A response with status 200 is decoded and returned verbatim. -/
theorem jsonOrError_ok_200 (x : Except PyError Response × Ondilo × Trace)
    (resp : Response) (h : x.1 = .ok resp) (h200 : resp.status_code = 200) :
    jsonOrError x = (.ok resp.json, x.2.1, x.2.2) := by
  rcases x with ⟨r, c, t⟩
  simp only at h
  subst h
  simp [jsonOrError, h200]

/-- A response with status other than 200 raises
`OndiloError(status_code, text)`. -/
theorem jsonOrError_ok_non200 (x : Except PyError Response × Ondilo × Trace)
    (resp : Response) (h : x.1 = .ok resp) (hne : resp.status_code ≠ 200) :
    jsonOrError x =
      (.error (.ondiloError resp.status_code resp.text), x.2.1, x.2.2) := by
  rcases x with ⟨r, c, t⟩
  simp only at h
  subst h
  simp [jsonOrError, hne]

/-- Every HTTP attempt a call issues is the one request built from the method,
the path and the kwargs of the call. -/
theorem request_attempts_all_eq (env : Env) (c : Ondilo) (m p : String)
    (k : List (String × String)) :
    ∀ r ∈ (Ondilo.request env c m p k).2.2.attempts, r = mkReq m p k := by
  cases h1 : env.http c.oauthToken (mkReq m p k) with
  | success resp => rw [request_success_case env c m p k resp h1]; simp
  | transportError msg => rw [request_transport_case env c m p k msg h1]; simp
  | tokenExpired =>
      cases h2 : env.refresh c.oauthToken with
      | failure msg =>
          rw [request_expired_refresh_fail env c m p k msg h1 h2]; simp
      | success tok =>
          cases h3 : env.http tok (mkReq m p k) with
          | success resp =>
              rw [request_expired_retry_success env c m p k tok resp h1 h2 h3]
              simp
          | tokenExpired =>
              rw [request_expired_retry_expired env c m p k tok h1 h2 h3]
              simp
          | transportError msg =>
              rw [request_expired_retry_transport env c m p k tok msg h1 h2 h3]
              simp

/-- When the first dispatch does not raise `TokenExpiredError`, the call
issues exactly one HTTP attempt. -/
theorem request_single_attempt (env : Env) (c : Ondilo) (m p : String)
    (k : List (String × String))
    (h : env.http c.oauthToken (mkReq m p k) ≠ .tokenExpired) :
    (Ondilo.request env c m p k).2.2.attempts = [mkReq m p k] := by
  cases h1 : env.http c.oauthToken (mkReq m p k) with
  | success resp => rw [request_success_case env c m p k resp h1]
  | transportError msg => rw [request_transport_case env c m p k msg h1]
  | tokenExpired => exact absurd h1 h

/-! ### Concrete fixtures -/

def tok0 : TokenSet := [("access_token", "a0"), ("refresh_token", "r0")]

def tok1 : TokenSet := [("access_token", "a1"), ("refresh_token", "r1")]

/-- A client built with the default configuration, an initial token and a
configured `token_updater`. -/
def c0 : Ondilo := mkOndilo tok0 DEFAULT_CLIENT_ID DEFAULT_CLIENT_SECRET none true

def resp200 : Response := { status_code := 200, text := "[]", json := .arr [] }

def resp401 : Response :=
  { status_code := 401, text := "Unauthorized", json := .null }

def resp201 : Response := { status_code := 201, text := "Created", json := .null }

def resp404 : Response := { status_code := 404, text := "Not Found", json := .null }

/-- Environment in which every dispatch returns a plain 401 response (the
OAuth layer raises no expiry exception) and a refresh would succeed. -/
def env401 : Env :=
  { http := fun _ _ => .success resp401,
    refresh := fun _ => .success tok1,
    exchange := fun _ _ => .ok tok1,
    state := "st" }

/-- Environment in which every dispatch returns a 201 response. -/
def env201 : Env := { env401 with http := fun _ _ => .success resp201 }

/-- Environment in which every dispatch returns a 404 response. -/
def env404 : Env := { env401 with http := fun _ _ => .success resp404 }

/-- Environment in which every dispatch returns a 200 response. -/
def envOk : Env := { env401 with http := fun _ _ => .success resp200 }

/-- Environment in which every dispatch raises `TokenExpiredError` while the
refresh itself succeeds. -/
def envExpireTwice : Env := { env401 with http := fun _ _ => .tokenExpired }

/-- Environment in which dispatching with the initial token `tok0` raises
`TokenExpiredError` and dispatching with any other token returns 200. -/
def envExpireOnce : Env :=
  { env401 with
    http := fun t _ => if t = tok0 then .tokenExpired else .success resp200 }

/-! ### Claims -/

/-- Claim C1: for every resource-method call, if the first HTTP attempt fails
with the expired-access-token signal, exactly one refresh of the token set is
performed and (as soon as the refresh returns a token) the identical request
— same method, same URL, same arguments — is reissued exactly once; a second
auth failure on the retried attempt triggers no second refresh, so every call
performs at most 2 HTTP attempts and at most 1 refresh.  Every resource
method is one application of `Ondilo.request`. -/
theorem request_at_most_one_refresh_retry (env : Env) (c : Ondilo)
    (m p : String) (k : List (String × String)) :
    (Ondilo.request env c m p k).2.2.attempts.length ≤ 2 ∧
    (Ondilo.request env c m p k).2.2.refreshes ≤ 1 ∧
    (∀ r ∈ (Ondilo.request env c m p k).2.2.attempts, r = mkReq m p k) ∧
    (env.http c.oauthToken (mkReq m p k) = .tokenExpired →
      (Ondilo.request env c m p k).2.2.refreshes = 1 ∧
      ∀ tok, env.refresh c.oauthToken = .success tok →
        (Ondilo.request env c m p k).2.2.attempts =
          [mkReq m p k, mkReq m p k]) := by
  refine ⟨?_, ?_, request_attempts_all_eq env c m p k, ?_⟩
  · cases h1 : env.http c.oauthToken (mkReq m p k) with
    | success resp => rw [request_success_case env c m p k resp h1]; simp
    | transportError msg =>
        rw [request_transport_case env c m p k msg h1]; simp
    | tokenExpired =>
        cases h2 : env.refresh c.oauthToken with
        | failure msg =>
            rw [request_expired_refresh_fail env c m p k msg h1 h2]; simp
        | success tok =>
            cases h3 : env.http tok (mkReq m p k) with
            | success resp =>
                rw [request_expired_retry_success env c m p k tok resp h1 h2 h3]
                simp
            | tokenExpired =>
                rw [request_expired_retry_expired env c m p k tok h1 h2 h3]
                simp
            | transportError msg =>
                rw [request_expired_retry_transport env c m p k tok msg h1 h2 h3]
                simp
  · cases h1 : env.http c.oauthToken (mkReq m p k) with
    | success resp => rw [request_success_case env c m p k resp h1]; simp
    | transportError msg =>
        rw [request_transport_case env c m p k msg h1]; simp
    | tokenExpired =>
        cases h2 : env.refresh c.oauthToken with
        | failure msg =>
            rw [request_expired_refresh_fail env c m p k msg h1 h2]
        | success tok =>
            cases h3 : env.http tok (mkReq m p k) with
            | success resp =>
                rw [request_expired_retry_success env c m p k tok resp h1 h2 h3]
            | tokenExpired =>
                rw [request_expired_retry_expired env c m p k tok h1 h2 h3]
            | transportError msg =>
                rw [request_expired_retry_transport env c m p k tok msg h1 h2 h3]
  · intro h1
    cases h2 : env.refresh c.oauthToken with
    | failure msg =>
        rw [request_expired_refresh_fail env c m p k msg h1 h2]
        refine ⟨rfl, ?_⟩
        intro tok htok
        simp at htok
    | success tok =>
        have hatt : (Ondilo.request env c m p k).2.2.attempts =
            [mkReq m p k, mkReq m p k] := by
          cases h3 : env.http tok (mkReq m p k) with
          | success resp =>
              rw [request_expired_retry_success env c m p k tok resp h1 h2 h3]
          | tokenExpired =>
              rw [request_expired_retry_expired env c m p k tok h1 h2 h3]
          | transportError msg =>
              rw [request_expired_retry_transport env c m p k tok msg h1 h2 h3]
        have hrefr : (Ondilo.request env c m p k).2.2.refreshes = 1 := by
          cases h3 : env.http tok (mkReq m p k) with
          | success resp =>
              rw [request_expired_retry_success env c m p k tok resp h1 h2 h3]
          | tokenExpired =>
              rw [request_expired_retry_expired env c m p k tok h1 h2 h3]
          | transportError msg =>
              rw [request_expired_retry_transport env c m p k tok msg h1 h2 h3]
        exact ⟨hrefr, fun _ _ => hatt⟩

/-- Witness for C1: with an access token simulated as expired
(`envExpireOnce`), a `get_pools` call performs exactly one refresh and issues
the identical request exactly twice. -/
theorem request_at_most_one_refresh_retry_witness :
    envExpireOnce.http c0.oauthToken (mkReq "get" "/pools" []) =
      .tokenExpired ∧
    (Ondilo.request envExpireOnce c0 "get" "/pools" []).2.2.refreshes = 1 ∧
    (Ondilo.request envExpireOnce c0 "get" "/pools" []).2.2.attempts =
      [mkReq "get" "/pools" [], mkReq "get" "/pools" []] := by
  have h :=
    (request_at_most_one_refresh_retry envExpireOnce c0 "get" "/pools" []).2.2.2
      (by rfl)
  exact ⟨rfl, h.1, h.2 tok1 rfl⟩

/-- Counterexample for C2: in `env401` the first attempt of `get_pools` comes
back as a plain HTTP 401 response (the OAuth layer raises no expiry
exception).  Contrary to the claim, no refresh and no reissue happen before
the error is surfaced: the call performs zero refreshes, issues exactly one
HTTP attempt, and raises `OndiloError(401, body)` directly. -/
theorem get_pools_401_response_counterexample :
    (Ondilo.get_pools env401 c0).2.2.refreshes = 0 ∧
    (Ondilo.get_pools env401 c0).2.2.attempts.length = 1 ∧
    (Ondilo.get_pools env401 c0).1 = .error (.ondiloError 401 "Unauthorized") :=
  ⟨rfl, rfl, rfl⟩

/-- Claim C2 (amended): only the OAuth layer's expiry exception triggers the
refresh-and-reissue; a first attempt that returns an HTTP response — in
particular a 401-class response — never does: the call issues exactly one
attempt, performs no refresh, and a 401 status is surfaced directly as
`OndiloError(401, body)`. -/
theorem response_401_no_refresh (env : Env) (c : Ondilo) (m p : String)
    (k : List (String × String)) (resp : Response)
    (h : env.http c.oauthToken (mkReq m p k) = .success resp) :
    (jsonOrError (Ondilo.request env c m p k)).2.2.refreshes = 0 ∧
    (jsonOrError (Ondilo.request env c m p k)).2.2.attempts = [mkReq m p k] ∧
    (resp.status_code = 401 →
      (jsonOrError (Ondilo.request env c m p k)).1 =
        .error (.ondiloError 401 resp.text)) := by
  rw [request_success_case env c m p k resp h]
  refine ⟨?_, ?_, ?_⟩
  · rw [jsonOrError_snd]
  · rw [jsonOrError_snd]
  · intro h401
    rw [jsonOrError_ok_non200 _ resp rfl (by simp [h401]), h401]

/-- Witness for C2 (amended): concrete 401 run of `get_pools` in `env401`. -/
theorem response_401_no_refresh_witness :
    (Ondilo.get_pools env401 c0).2.2.attempts = [mkReq "get" "/pools" []] ∧
    (Ondilo.get_pools env401 c0).1 = .error (.ondiloError 401 "Unauthorized") := by
  have h := response_401_no_refresh env401 c0 "get" "/pools" [] resp401 rfl
  exact ⟨h.2.1, h.2.2 rfl⟩

/-- Counterexample for C3: in `env201` the response of `get_pools` has status
201 — a 2xx status — yet the call does not return the parsed JSON body: the
code tests `status_code != 200`, so it raises `OndiloError(201, body)`. -/
theorem get_pools_201_counterexample :
    200 ≤ 201 ∧ 201 < 300 ∧
    (Ondilo.get_pools env201 c0).1 = .error (.ondiloError 201 "Created") :=
  ⟨by decide, by decide, rfl⟩

/-- Claim C3 (amended): for every resource method, when the (possibly
retried) HTTP attempt returns a response whose status code is not exactly 200
— including other 2xx codes — the call fails with `OndiloError` carrying that
status code and the raw body text; when the status code is exactly 200 the
body parsed as JSON is returned to the caller verbatim. -/
theorem resource_json_exactly_on_200 (env : Env) (c : Ondilo) (m p : String)
    (k : List (String × String)) (resp : Response)
    (h : (Ondilo.request env c m p k).1 = .ok resp) :
    (resp.status_code = 200 →
      (jsonOrError (Ondilo.request env c m p k)).1 = .ok resp.json) ∧
    (resp.status_code ≠ 200 →
      (jsonOrError (Ondilo.request env c m p k)).1 =
        .error (.ondiloError resp.status_code resp.text)) := by
  constructor
  · intro h200
    rw [jsonOrError_ok_200 _ resp h h200]
  · intro hne
    rw [jsonOrError_ok_non200 _ resp h hne]

/-- Witness for C3 (amended): a 200 run of `get_pools` in `envOk` returns
the parsed body `[]` verbatim; a 404 run of `get_ICO_details` in `env404`
fails with `OndiloError(404, body)`. -/
theorem resource_json_exactly_on_200_witness :
    (Ondilo.get_pools envOk c0).1 = .ok (.arr []) ∧
    (Ondilo.get_ICO_details env404 c0 999).1 =
      .error (.ondiloError 404 "Not Found") := by
  constructor
  · exact (resource_json_exactly_on_200 envOk c0 "get" "/pools" [] resp200
      (by rw [request_success_case envOk c0 "get" "/pools" [] resp200 rfl])).1 rfl
  · exact (resource_json_exactly_on_200 env404 c0 "get" "/pools/999/device" []
      resp404 (by rw [request_success_case env404 c0 "get" "/pools/999/device" []
        resp404 rfl])).2 (by decide)

/-- Counterexample for C4: in `envExpireTwice` both the first and the retried
attempt of `get_pools` raise the OAuth layer's expiry exception.  The call
surfaces `TokenExpiredError` itself — a raw OAuth-layer exception, not the
repository's structured `OndiloError` (and the repository defines no
AuthError or InvalidArgument class of its own at all). -/
theorem get_pools_raw_exception_counterexample :
    (Ondilo.get_pools envExpireTwice c0).1 = .error .tokenExpiredError ∧
    ∀ sc msg, (Ondilo.get_pools envExpireTwice c0).1 ≠
      .error (.ondiloError sc msg) := by
  refine ⟨rfl, ?_⟩
  intro sc msg h
  rw [show (Ondilo.get_pools envExpireTwice c0).1 =
    .error .tokenExpiredError from rfl] at h
  simp at h

/-- Claim C4 (amended): a resource call never swallows a failure — it returns
a value only when the final HTTP attempt produced a response with status 200,
and any non-200 response is surfaced as the structured `OndiloError` — but
not every failure is structured: when the retried attempt raises the expiry
exception again, the raw OAuth-layer `TokenExpiredError` propagates to the
caller, and other transport/OAuth exceptions propagate raw likewise. -/
theorem resource_error_propagation (env : Env) (c : Ondilo) (m p : String)
    (k : List (String × String)) :
    (∀ j, (jsonOrError (Ondilo.request env c m p k)).1 = .ok j →
      ∃ resp, (Ondilo.request env c m p k).1 = .ok resp ∧
        resp.status_code = 200 ∧ j = resp.json) ∧
    (∀ resp, (Ondilo.request env c m p k).1 = .ok resp →
      resp.status_code ≠ 200 →
      (jsonOrError (Ondilo.request env c m p k)).1 =
        .error (.ondiloError resp.status_code resp.text)) ∧
    (∀ tok, env.http c.oauthToken (mkReq m p k) = .tokenExpired →
      env.refresh c.oauthToken = .success tok →
      env.http tok (mkReq m p k) = .tokenExpired →
      (jsonOrError (Ondilo.request env c m p k)).1 =
        .error .tokenExpiredError) := by
  refine ⟨?_, ?_, ?_⟩
  · intro j hj
    cases hx : (Ondilo.request env c m p k).1 with
    | error e =>
        rw [jsonOrError_error _ e hx] at hj
        simp at hj
    | ok resp =>
        by_cases h200 : resp.status_code = 200
        · rw [jsonOrError_ok_200 _ resp hx h200] at hj
          simp only [] at hj
          injection hj with hj
          exact ⟨resp, rfl, h200, hj.symm⟩
        · rw [jsonOrError_ok_non200 _ resp hx h200] at hj
          simp at hj
  · intro resp hx hne
    rw [jsonOrError_ok_non200 _ resp hx hne]
  · intro tok h1 h2 h3
    rw [request_expired_retry_expired env c m p k tok h1 h2 h3]
    rw [jsonOrError_error _ .tokenExpiredError rfl]

/-- Witness for C4 (amended): in `envOk` the 200 run of `get_pools` returns a
value, and that value is exactly the parsed body of a 200 response. -/
theorem resource_error_propagation_witness :
    ∃ resp, (Ondilo.request envOk c0 "get" "/pools" []).1 = .ok resp ∧
      resp.status_code = 200 ∧ Json.arr [] = resp.json :=
  (resource_error_propagation envOk c0 "get" "/pools" []).1 (.arr []) rfl

/-- Claim C5: whenever the refresh succeeds, the stored token set is replaced
by the new one and, exactly when a `token_updater` callback was configured at
construction, that callback is invoked exactly once with the new token set
before `refresh_tokens` returns; with no callback configured there is no
notification.  The same holds for the refresh performed inside
`Ondilo.request`. -/
theorem refresh_tokens_replaces_and_notifies (env : Env) (c : Ondilo)
    (tok : TokenSet) (h : env.refresh c.oauthToken = .success tok) :
    Ondilo.refresh_tokens env c =
      (.ok tok, { c with oauthToken := tok },
       if c.hasTokenUpdater then [tok] else []) ∧
    (∀ m p k, env.http c.oauthToken (mkReq m p k) = .tokenExpired →
      (Ondilo.request env c m p k).2.1.oauthToken = tok ∧
      (Ondilo.request env c m p k).2.2.updaterCalls =
        (if c.hasTokenUpdater then [tok] else [])) := by
  constructor
  · simp only [Ondilo.refresh_tokens, h]
  · intro m p k h1
    cases h3 : env.http tok (mkReq m p k) with
    | success resp =>
        rw [request_expired_retry_success env c m p k tok resp h1 h h3]
        exact ⟨rfl, rfl⟩
    | tokenExpired =>
        rw [request_expired_retry_expired env c m p k tok h1 h h3]
        exact ⟨rfl, rfl⟩
    | transportError msg =>
        rw [request_expired_retry_transport env c m p k tok msg h1 h h3]
        exact ⟨rfl, rfl⟩

/-- Witness for C5: in `envExpireOnce` the client `c0` (which has a
`token_updater` configured) ends up with the refreshed token stored and the
updater invoked exactly once with it. -/
theorem refresh_tokens_replaces_and_notifies_witness :
    Ondilo.refresh_tokens envExpireOnce c0 =
      (.ok tok1, { c0 with oauthToken := tok1 }, [tok1]) ∧
    (Ondilo.request envExpireOnce c0 "get" "/pools" []).2.2.updaterCalls =
      [tok1] := by
  have h := refresh_tokens_replaces_and_notifies envExpireOnce c0 tok1 rfl
  constructor
  · have h1 := h.1
    simpa [c0, mkOndilo] using h1
  · have h2 := (h.2 "get" "/pools" [] rfl).2
    simpa [c0, mkOndilo] using h2

/-- Claim C6: for every `pool_id`, `measure` and `period`, `get_pool_histo`
issues its GET against the fixed host and API prefix with path
`/pools/{pool_id}/measures?type={measure}&period={period}` exactly; any
period string — also one outside day/week/month — is concatenated into the
query uninterpreted, with no client-side validation; when no expiry signal
occurs the call issues this GET exactly once. -/
theorem get_pool_histo_url (env : Env) (c : Ondilo) (pool_id : Int)
    (measure period : String) :
    (∀ r ∈ (Ondilo.get_pool_histo env c pool_id measure period).2.2.attempts,
      r.method = "get" ∧
      r.url = API_URL ++ ("/pools/" ++ toString pool_id ++ "/measures?type=" ++
        measure ++ "&period=" ++ period)) ∧
    API_URL = "https://interop.ondilo.com/api/customer/v1" ∧
    (env.http c.oauthToken
        (mkReq "get" ("/pools/" ++ toString pool_id ++ "/measures?type=" ++
          measure ++ "&period=" ++ period) []) ≠ .tokenExpired →
      (Ondilo.get_pool_histo env c pool_id measure period).2.2.attempts =
        [mkReq "get" ("/pools/" ++ toString pool_id ++ "/measures?type=" ++
          measure ++ "&period=" ++ period) []]) := by
  refine ⟨?_, by decide, ?_⟩
  · intro r hr
    rw [show Ondilo.get_pool_histo env c pool_id measure period =
      jsonOrError (Ondilo.request env c "get"
        ("/pools/" ++ toString pool_id ++ "/measures?type=" ++ measure ++
         "&period=" ++ period) []) from rfl, jsonOrError_snd] at hr
    rw [request_attempts_all_eq env c "get"
      ("/pools/" ++ toString pool_id ++ "/measures?type=" ++ measure ++
       "&period=" ++ period) [] r hr]
    exact ⟨rfl, rfl⟩
  · intro hne
    rw [show Ondilo.get_pool_histo env c pool_id measure period =
      jsonOrError (Ondilo.request env c "get"
        ("/pools/" ++ toString pool_id ++ "/measures?type=" ++ measure ++
         "&period=" ++ period) []) from rfl, jsonOrError_snd]
    exact request_single_attempt env c "get"
      ("/pools/" ++ toString pool_id ++ "/measures?type=" ++ measure ++
       "&period=" ++ period) [] hne

/-- Witness for C6: `get_pool_histo(1, "temperature", "week")` in `envOk`
issues exactly one GET to
`/pools/1/measures?type=temperature&period=week`, and an out-of-range period
string such as "century" is passed through to the query unchanged. -/
theorem get_pool_histo_url_witness :
    (Ondilo.get_pool_histo envOk c0 1 "temperature" "week").2.2.attempts =
      [{ method := "get",
         url := "https://interop.ondilo.com/api/customer/v1/pools/1/measures?type=temperature&period=week",
         kwargs := [] }] ∧
    (Ondilo.get_pool_histo envOk c0 1 "temperature" "century").2.2.attempts =
      [{ method := "get",
         url := "https://interop.ondilo.com/api/customer/v1/pools/1/measures?type=temperature&period=century",
         kwargs := [] }] := by
  constructor
  · rw [(get_pool_histo_url envOk c0 1 "temperature" "week").2.2
      (fun h => HttpOutcome.noConfusion h)]
    rfl
  · rw [(get_pool_histo_url envOk c0 1 "temperature" "century").2.2
      (fun h => HttpOutcome.noConfusion h)]
    rfl

/-- Claim C7: for every `pool_id`, `get_last_pool_measures` issues its GET
against the `/pools/{pool_id}/lastmeasures` path with a query string that
lists all seven fixed measurement types in the documented order temperature,
ph, orp, salt, battery, tds, rssi; when no expiry signal occurs the call
issues this GET exactly once. -/
theorem get_last_measures_types_in_order (env : Env) (c : Ondilo)
    (pool_id : Int) :
    lastMeasuresQstr =
      "?" ++ String.intercalate "&"
        ((["temperature", "ph", "orp", "salt", "battery", "tds", "rssi"]).map
          (fun t => "types[]=" ++ t)) ∧
    (∀ r ∈ (Ondilo.get_last_pool_measures env c pool_id).2.2.attempts,
      r.method = "get" ∧
      r.url = API_URL ++ ("/pools/" ++ toString pool_id ++ "/lastmeasures" ++
        lastMeasuresQstr)) ∧
    (env.http c.oauthToken
        (mkReq "get" ("/pools/" ++ toString pool_id ++ "/lastmeasures" ++
          lastMeasuresQstr) []) ≠ .tokenExpired →
      (Ondilo.get_last_pool_measures env c pool_id).2.2.attempts =
        [mkReq "get" ("/pools/" ++ toString pool_id ++ "/lastmeasures" ++
          lastMeasuresQstr) []]) := by
  refine ⟨by decide, ?_, ?_⟩
  · intro r hr
    rw [show Ondilo.get_last_pool_measures env c pool_id =
      jsonOrError (Ondilo.request env c "get"
        ("/pools/" ++ toString pool_id ++ "/lastmeasures" ++ lastMeasuresQstr)
        []) from rfl, jsonOrError_snd] at hr
    rw [request_attempts_all_eq env c "get"
      ("/pools/" ++ toString pool_id ++ "/lastmeasures" ++ lastMeasuresQstr)
      [] r hr]
    exact ⟨rfl, rfl⟩
  · intro hne
    rw [show Ondilo.get_last_pool_measures env c pool_id =
      jsonOrError (Ondilo.request env c "get"
        ("/pools/" ++ toString pool_id ++ "/lastmeasures" ++ lastMeasuresQstr)
        []) from rfl, jsonOrError_snd]
    exact request_single_attempt env c "get"
      ("/pools/" ++ toString pool_id ++ "/lastmeasures" ++ lastMeasuresQstr)
      [] hne

/-- Witness for C7: `get_last_pool_measures(1)` in `envOk` issues exactly one
GET whose query string carries the seven types in the documented order. -/
theorem get_last_measures_types_in_order_witness :
    (Ondilo.get_last_pool_measures envOk c0 1).2.2.attempts =
      [{ method := "get",
         url := "https://interop.ondilo.com/api/customer/v1/pools/1/lastmeasures?types[]=temperature&types[]=ph&types[]=orp&types[]=salt&types[]=battery&types[]=tds&types[]=rssi",
         kwargs := [] }] := by
  rw [(get_last_measures_types_in_order envOk c0 1).2.2
    (fun h => HttpOutcome.noConfusion h)]
  rfl

/-- Claim C8: calling `request_token` with both `authorization_response` and
`code` absent fails with the OAuth layer's invalid-argument rejection — it
neither succeeds nor fails with an auth-exchange error or an
`OndiloError`-style API error.  (The rejection itself is modelled from the
spec, since `fetch_token` lives in the OAuth library, outside this
repository.) -/
theorem request_token_both_absent_invalid (env : Env) (c : Ondilo) :
    Ondilo.request_token env c none none =
      .error (.invalidArgument
        "Please supply either code or authorization_response parameters.") ∧
    (∀ tok, Ondilo.request_token env c none none ≠ .ok tok) ∧
    (∀ sc msg, Ondilo.request_token env c none none ≠
      .error (.ondiloError sc msg)) ∧
    (∀ msg, Ondilo.request_token env c none none ≠
      .error (.oauthError msg)) := by
  refine ⟨rfl, ?_, ?_, ?_⟩
  · intro tok h
    rw [show Ondilo.request_token env c none none =
      .error (.invalidArgument
        "Please supply either code or authorization_response parameters.")
      from rfl] at h
    simp at h
  · intro sc msg h
    rw [show Ondilo.request_token env c none none =
      .error (.invalidArgument
        "Please supply either code or authorization_response parameters.")
      from rfl] at h
    simp at h
  · intro msg h
    rw [show Ondilo.request_token env c none none =
      .error (.invalidArgument
        "Please supply either code or authorization_response parameters.")
      from rfl] at h
    simp at h

/-- Witness for C8: the concrete client `c0` in `env401`. -/
theorem request_token_both_absent_invalid_witness :
    Ondilo.request_token env401 c0 none none =
      .error (.invalidArgument
        "Please supply either code or authorization_response parameters.") :=
  (request_token_both_absent_invalid env401 c0).1

/-- Claim C9: for every configured `client_id` and `redirect_uri` (and the
client's scope, which construction fixes to the default "api"),
`get_authurl` returns a URL pointing at the fixed authorize endpoint
`/oauth2/authorize` at the root of host `https://interop.ondilo.com`, whose
query parameters carry exactly those configured values URL-encoded (together
with the response type and the OAuth layer's generated state). -/
theorem get_authurl_contains_config (env : Env) (token : TokenSet)
    (client_id client_secret ru : String) (hasUpd : Bool) :
    Ondilo.get_authurl env
        (mkOndilo token client_id client_secret (some ru) hasUpd) =
      API_HOST ++ ENDPOINT_AUTHORIZE ++ "?" ++ urlencodeParams
        [("response_type", "code"), ("client_id", client_id),
         ("redirect_uri", ru), ("scope", DEFAULT_SCOPE),
         ("state", env.state)] ∧
    (mkOndilo token client_id client_secret (some ru) hasUpd).scope =
      DEFAULT_SCOPE ∧
    DEFAULT_SCOPE = "api" ∧
    API_HOST = "https://interop.ondilo.com" ∧
    ENDPOINT_AUTHORIZE = "/oauth2/authorize" :=
  ⟨rfl, rfl, rfl, rfl, rfl⟩

/-- Claim C10: for every resource-method call in which no token-expiry signal
is raised and the response status is not 200, the method raises the error
with the client — in particular its stored token set — unchanged, without
invoking the `token_updater` callback and without refreshing: failure of a
plain API call never mutates token state. -/
theorem resource_error_keeps_state (env : Env) (c : Ondilo) (m p : String)
    (k : List (String × String)) (resp : Response)
    (h : env.http c.oauthToken (mkReq m p k) = .success resp)
    (hne : resp.status_code ≠ 200) :
    jsonOrError (Ondilo.request env c m p k) =
      (.error (.ondiloError resp.status_code resp.text), c,
       { attempts := [mkReq m p k], refreshes := 0, updaterCalls := [] }) := by
  rw [request_success_case env c m p k resp h]
  rw [jsonOrError_ok_non200 _ resp rfl hne]

/-- Witness for C10: the 404 run of `get_ICO_details(999)` in `env404` (the
spec's own example) raises `OndiloError(404, body)` and leaves the client —
token included — exactly as it was, with no updater call and no refresh. -/
theorem resource_error_keeps_state_witness :
    Ondilo.get_ICO_details env404 c0 999 =
      (.error (.ondiloError 404 "Not Found"), c0,
       { attempts := [mkReq "get" "/pools/999/device" []], refreshes := 0,
         updaterCalls := [] }) :=
  resource_error_keeps_state env404 c0 "get" "/pools/999/device" [] resp404
    rfl (by decide)
